import Mathlib

/-!
Shallow embedding of the bike-sharing dashboard
(src/Dashboard/dashboard.py) and verification of its
natural-language specification.

Modelling conventions:
- A pandas DataFrame row is a typed `Record`; `dteday` is a calendar
  date represented as an integer day number (so subtraction of two
  dates is the number of days between them, matching
  `(Timestamp a - Timestamp b).days` for day-granular data).
- Boolean masks over the frame are `List.filter` over the record list.
- Scalar pandas aggregations: `.sum()` of an integer column is a `Nat`
  sum; `.mean()` of an empty column is NaN, modelled as `none` of an
  `Option Rat`; Python `round(x, 2)` is round-half-to-even at two
  decimals on `Rat`.
-/

/-- One row of all_data.csv after `load_data` parses it
(dashboard.py line 20 converts `dteday` to a datetime; every other
column keeps its raw integer encoding). -/
structure Record where
  instant : Nat
  dteday : Int
  season : Nat
  yr : Nat
  mnth : Nat
  hr : Nat
  holiday : Nat
  weekday : Nat
  workingday : Nat
  casual : Nat
  registered : Nat
  cnt : Nat
deriving Repr, DecidableEq, Inhabited

/-- The loaded table `all_df`: an ordered sequence of records. -/
abbrev Dataset := List Record

/-- The five sidebar filter parameters (dashboard.py lines 30-40):
date range, season multiselect, the two checkboxes, and the hour
range slider (whose bounds are 0 and 24 in this script). -/
structure FilterCriteria where
  start_date : Int
  end_date : Int
  season_filter : List Nat
  holiday_filter : Bool
  workingday_filter : Bool
  hour_min : Nat
  hour_max : Nat
deriving Repr, DecidableEq

/-- The first boolean mask (dashboard.py lines 43-47):
`(dteday >= start) & (dteday <= end) & season.isin(season_filter)`. -/
def pass1 (c : FilterCriteria) (r : Record) : Bool :=
  decide (c.start_date ≤ r.dteday) && decide (r.dteday ≤ c.end_date) &&
    decide (r.season ∈ c.season_filter)

/-- Conditional holiday mask (dashboard.py lines 49-50):
`if holiday_filter: filtered_df = filtered_df[filtered_df.holiday == 1]`. -/
def applyHoliday (c : FilterCriteria) (df : Dataset) : Dataset :=
  if c.holiday_filter then df.filter (fun r => r.holiday == 1) else df

/-- Conditional workingday mask (dashboard.py lines 51-52). -/
def applyWorkingday (c : FilterCriteria) (df : Dataset) : Dataset :=
  if c.workingday_filter then df.filter (fun r => r.workingday == 1) else df

/-- The hour-range mask (dashboard.py line 54):
`(hr >= hour_filter[0]) & (hr <= hour_filter[1])`. -/
def pass4 (c : FilterCriteria) (r : Record) : Bool :=
  decide (c.hour_min ≤ r.hr) && decide (r.hr ≤ c.hour_max)

/-- `filtered_df` (dashboard.py lines 43-54): the four masking stages
applied in the script's order. -/
def filtered_df (df : Dataset) (c : FilterCriteria) : Dataset :=
  (applyWorkingday c (applyHoliday c (df.filter (pass1 c)))).filter (pass4 c)

theorem applyHoliday_sublist (c : FilterCriteria) (df : Dataset) :
    List.Sublist (applyHoliday c df) df := by
  unfold applyHoliday
  split
  · exact List.filter_sublist df
  · exact List.Sublist.refl df

theorem applyWorkingday_sublist (c : FilterCriteria) (df : Dataset) :
    List.Sublist (applyWorkingday c df) df := by
  unfold applyWorkingday
  split
  · exact List.filter_sublist df
  · exact List.Sublist.refl df

theorem filtered_df_sublist (df : Dataset) (c : FilterCriteria) :
    List.Sublist (filtered_df df c) df :=
  ((List.filter_sublist _).trans
    ((applyWorkingday_sublist c _).trans
      ((applyHoliday_sublist c _).trans (List.filter_sublist df))))

theorem mem_applyHoliday (c : FilterCriteria) (df : Dataset) (r : Record) :
    r ∈ applyHoliday c df ↔ r ∈ df ∧ (c.holiday_filter = true → r.holiday = 1) := by
  unfold applyHoliday
  cases h : c.holiday_filter <;> simp [List.mem_filter]

theorem mem_applyWorkingday (c : FilterCriteria) (df : Dataset) (r : Record) :
    r ∈ applyWorkingday c df ↔
      r ∈ df ∧ (c.workingday_filter = true → r.workingday = 1) := by
  unfold applyWorkingday
  cases h : c.workingday_filter <;> simp [List.mem_filter]

/-- Full characterization of membership in `filtered_df`. -/
theorem mem_filtered_df (df : Dataset) (c : FilterCriteria) (r : Record) :
    r ∈ filtered_df df c ↔
      r ∈ df ∧ c.start_date ≤ r.dteday ∧ r.dteday ≤ c.end_date ∧
        r.season ∈ c.season_filter ∧
        (c.holiday_filter = true → r.holiday = 1) ∧
        (c.workingday_filter = true → r.workingday = 1) ∧
        c.hour_min ≤ r.hr ∧ r.hr ≤ c.hour_max := by
  unfold filtered_df
  simp only [List.mem_filter, mem_applyWorkingday, mem_applyHoliday, pass1, pass4,
    Bool.and_eq_true, decide_eq_true_eq]
  tauto

/-- Sum of the `cnt` column, as in `filtered_df['cnt'].sum()`
(dashboard.py line 66); the pandas sum of an empty column is 0. -/
def sumCnt (df : Dataset) : Nat :=
  (df.map (fun r => r.cnt)).sum

/-- Mean of the `cnt` column, `filtered_df['cnt'].mean()`
(dashboard.py line 68); pandas yields NaN on an empty column,
modelled as `none`. -/
def meanCnt (df : Dataset) : Option Rat :=
  if df.length = 0 then none
  else some ((sumCnt df : Rat) / (df.length : Rat))

/-- Python's built-in `round` to the nearest integer:
round half to even. -/
def roundHE (x : Rat) : Int :=
  let f := x.floor
  let frac := x - (f : Rat)
  if frac < 1 / 2 then f
  else if 1 / 2 < frac then f + 1
  else if f % 2 = 0 then f else f + 1

/-- Python `round(x, 2)` on an exact rational. -/
def round2 (x : Rat) : Rat :=
  (roundHE (x * 100) : Rat) / 100

/-- The four scalar metrics of the statistics row
(dashboard.py lines 63-72). -/
structure Metrics where
  totalRentals : Nat
  avgRentals : Option Rat
  totalCasual : Nat
  totalRegistered : Nat
deriving Repr, DecidableEq

/-- The values passed to the four `st.metric` calls
(dashboard.py lines 66, 68, 70, 72); `round(nan, 2)` is NaN, so the
rounding maps through the option. -/
def computeMetrics (df : Dataset) : Metrics :=
  { totalRentals := sumCnt df
    avgRentals := (meanCnt df).map round2
    totalCasual := (df.map (fun r => r.casual)).sum
    totalRegistered := (df.map (fun r => r.registered)).sum }

/-- The two bar heights of the workingday-vs-holiday chart
(dashboard.py line 127):
`[filtered_df['workingday'].sum(), filtered_df['holiday'].sum()]`. -/
def wdHolidayChart (df : Dataset) : Nat × Nat :=
  ((df.map (fun r => r.workingday)).sum, (df.map (fun r => r.holiday)).sum)

/-- What the chart would show if it summed the `cnt` rental column over
the rows with each flag set (the reading the chart's axis label
"Total Penyewaan" suggests); used only to contrast with
`wdHolidayChart`. -/
def cntByFlags (df : Dataset) : Nat × Nat :=
  (sumCnt (df.filter (fun r => r.workingday == 1)),
   sumCnt (df.filter (fun r => r.holiday == 1)))

/-- Result of `load_data` (dashboard.py lines 11-21): the returned
frame together with whether `st.error` was shown. -/
structure LoadResult where
  errorShown : Bool
  dataset : Dataset
deriving Repr, DecidableEq

/-- `load_data` (dashboard.py lines 11-21). `fileExists` models
`os.path.exists(file_path)`; `contents` is the CSV content as parsed
records (`pd.read_csv` plus the `dteday` datetime conversion are
abstracted into the already-typed rows). If the file is absent the
function shows an error and returns an empty frame; otherwise it
returns the rows unchanged: no validation of any kind is performed. -/
def load_data (fileExists : Bool) (contents : Dataset) : LoadResult :=
  if fileExists then { errorShown := false, dataset := contents }
  else { errorShown := true, dataset := [] }

/-- Everything the page renders below the `st.stop()` guard, reduced
to the parts the claims mention. -/
structure Rendered where
  metrics : Metrics
  wdHol : Nat × Nat
deriving Repr

/-- The top-level script flow (dashboard.py lines 24-27 and below):
call `load_data`, and if the frame is empty, `st.stop()` halts the
script, so nothing is rendered (`none`); otherwise the filters and
builders run. -/
def runDashboard (fileExists : Bool) (contents : Dataset)
    (c : FilterCriteria) : Option Rendered :=
  let lr := load_data fileExists contents
  if lr.dataset.isEmpty then none
  else
    some { metrics := computeMetrics (filtered_df lr.dataset c)
           wdHol := wdHolidayChart (filtered_df lr.dataset c) }

/-- One row of `rfm_df` (dashboard.py lines 133-137). -/
structure RFMRecord where
  recency : Int
  frequency : Nat
  monetary : Nat
deriving Repr, DecidableEq

/-- The group keys of `filtered_df.groupby('instant')`: the distinct
values of the `instant` column. -/
def rfmKeys (df : Dataset) : List Nat :=
  (df.map (fun r => r.instant)).dedup

/-- The rows of one `groupby('instant')` group. -/
def rfmGroup (df : Dataset) (k : Nat) : Dataset :=
  df.filter (fun r => r.instant == k)

/-- Maximum of a list of dates accumulated from a starting value. -/
def dmax (d : Int) : List Int → Int
  | [] => d
  | x :: xs => dmax (max d x) xs

/-- `x.max()` over the `dteday` column of a (nonempty) group. -/
def maxDate : Dataset → Int
  | [] => 0
  | r :: rs => dmax r.dteday (rs.map (fun x => x.dteday))

/-- The aggregation of dashboard.py lines 133-137 for one group key:
`Recency = (Timestamp(end_date) - x.max()).days`,
`Frequency = count of instant`, `Monetary = sum of cnt`. -/
def rfmAgg (endDate : Int) (df : Dataset) (k : Nat) : RFMRecord :=
  { recency := endDate - maxDate (rfmGroup df k)
    frequency := (rfmGroup df k).length
    monetary := sumCnt (rfmGroup df k) }

/-- Insertion of a rational into a sorted list (ascending). -/
def insertRat (x : Rat) : List Rat → List Rat
  | [] => [x]
  | y :: ys => if x ≤ y then x :: y :: ys else y :: insertRat x ys

/-- Ascending sort of a rational column, as numpy sorts the data
before taking empirical quantiles. -/
def sortRat : List Rat → List Rat
  | [] => []
  | x :: xs => insertRat x (sortRat xs)

/-- Empirical quantile with linear interpolation (the default used by
`pd.qcut`): on sorted data of length n, the quantile at p sits at
fractional position h = p * (n - 1). -/
def quantileLin (s : List Rat) (p : Rat) : Rat :=
  match s with
  | [] => 0
  | _ :: _ =>
    let n := s.length
    let h := p * ((n : Rat) - 1)
    let i := h.floor
    let g := h - (i : Rat)
    let xi := s.getD i.toNat 0
    let xj := s.getD (i.toNat + 1) xi
    xi + g * (xj - xi)

/-- The bin edges `pd.qcut(x, q)` computes: the quantiles of `x` at
q + 1 evenly spaced probabilities 0, 1/q, ..., 1. -/
def qcutEdges (xs : List Rat) (q : Nat) : List Rat :=
  (List.range (q + 1)).map (fun i => quantileLin (sortRat xs) ((i : Rat) / (q : Rat)))

/-- Collapse adjacent duplicate edges (the edges are sorted, so this
is what `unique` does to them inside pandas). -/
def dedupAdj : List Rat → List Rat
  | [] => []
  | [x] => [x]
  | x :: y :: rest =>
    if x = y then dedupAdj (y :: rest) else x :: dedupAdj (y :: rest)

/-- The duplicate-edge handling of `pd.qcut(x, q, duplicates=...)`:
when the computed edges contain duplicates (and there are more than
two edges), `duplicates='drop'` keeps the deduplicated edges while the
default `duplicates='raise'` raises
`ValueError: Bin edges must be unique`. Returns the final edges. -/
def qcutCheck (xs : List Rat) (q : Nat) (drop : Bool) : Except String (List Rat) :=
  let bins := qcutEdges xs q
  let ub := dedupAdj bins
  if ub.length < bins.length ∧ bins.length ≠ 2 then
    if drop then Except.ok ub else Except.error "Bin edges must be unique"
  else Except.ok bins

/-- The RFM quantile-binning step (dashboard.py lines 140-146) on the
three columns of `rfm_df`: lines 140-142 compute `num_bins_r/f/m` as
one fewer than the number of edges returned by
`pd.qcut(col, 4, retbins=True, duplicates='drop')`, and lines 144-146
then call `pd.qcut(col, num_bins, labels=...)` WITHOUT
`duplicates='drop'`. -/
def rfmBinning (recencyCol freqCol monetaryCol : List Rat) :
    Except String Unit := do
  let br ← qcutCheck recencyCol 4 true
  let bf ← qcutCheck freqCol 4 true
  let bm ← qcutCheck monetaryCol 4 true
  let _ ← qcutCheck recencyCol (br.length - 1) false
  let _ ← qcutCheck freqCol (bf.length - 1) false
  let _ ← qcutCheck monetaryCol (bm.length - 1) false
  Except.ok ()

theorem le_dmax (l : List Int) : ∀ d : Int, d ≤ dmax d l := by
  induction l with
  | nil => intro d; exact le_refl d
  | cons x xs ih =>
    intro d
    exact le_trans (le_max_left d x) (ih (max d x))

theorem mem_le_dmax (l : List Int) :
    ∀ d x : Int, x ∈ l → x ≤ dmax d l := by
  induction l with
  | nil => intro d x hx; cases hx
  | cons y ys ih =>
    intro d x hx
    rcases List.mem_cons.mp hx with h | h
    · subst h
      exact le_trans (le_max_right d x) (le_dmax ys (max d x))
    · exact ih (max d y) x h

theorem dmax_le (e : Int) (l : List Int) :
    ∀ d : Int, d ≤ e → (∀ x ∈ l, x ≤ e) → dmax d l ≤ e := by
  induction l with
  | nil => intro d hd _; exact hd
  | cons y ys ih =>
    intro d hd hall
    exact ih (max d y) (max_le hd (hall y (List.mem_cons_self y ys)))
      (fun x hx => hall x (List.mem_cons_of_mem y hx))

theorem dmax_mem_or (l : List Int) :
    ∀ d : Int, dmax d l = d ∨ dmax d l ∈ l := by
  induction l with
  | nil => intro d; exact Or.inl rfl
  | cons y ys ih =>
    intro d
    rcases ih (max d y) with h | h
    · rcases max_choice d y with hm | hm
      · exact Or.inl (by rw [dmax, h, hm])
      · exact Or.inr (by rw [dmax, h, hm]; exact List.mem_cons_self y ys)
    · exact Or.inr (List.mem_cons_of_mem y (by rw [dmax]; exact h))

theorem maxDate_mem (g : Dataset) (hne : g ≠ []) :
    maxDate g ∈ g.map (fun r => r.dteday) := by
  cases g with
  | nil => exact absurd rfl hne
  | cons r rs =>
    rcases dmax_mem_or (rs.map (fun x => x.dteday)) r.dteday with h | h
    · rw [maxDate, h]; exact List.mem_map_of_mem _ (List.mem_cons_self r rs)
    · rw [maxDate]
      rcases List.mem_map.mp h with ⟨x, hx, hxe⟩
      exact List.mem_map.mpr ⟨x, List.mem_cons_of_mem r hx, hxe⟩

theorem le_maxDate (g : Dataset) (r : Record) (hr : r ∈ g) :
    r.dteday ≤ maxDate g := by
  cases g with
  | nil => cases hr
  | cons s ss =>
    rcases List.mem_cons.mp hr with h | h
    · subst h; exact le_dmax _ _
    · exact mem_le_dmax _ _ _ (List.mem_map_of_mem _ h)

theorem maxDate_le (g : Dataset) (e : Int) (hne : g ≠ [])
    (hall : ∀ r ∈ g, r.dteday ≤ e) : maxDate g ≤ e := by
  cases g with
  | nil => exact absurd rfl hne
  | cons s ss =>
    refine dmax_le e _ _ (hall s (List.mem_cons_self s ss)) ?_
    intro x hx
    rcases List.mem_map.mp hx with ⟨y, hy, hye⟩
    exact hye ▸ hall y (List.mem_cons_of_mem s hy)

theorem rfmGroup_subset (df : Dataset) (k : Nat) (r : Record)
    (hr : r ∈ rfmGroup df k) : r ∈ df ∧ r.instant = k := by
  unfold rfmGroup at hr
  have h := List.mem_filter.mp hr
  exact ⟨h.1, beq_iff_eq.mp h.2⟩

theorem rfmGroup_ne_nil (df : Dataset) (k : Nat) (hk : k ∈ rfmKeys df) :
    rfmGroup df k ≠ [] := by
  unfold rfmKeys at hk
  rcases List.mem_map.mp (List.mem_dedup.mp hk) with ⟨r, hr, hrk⟩
  exact List.ne_nil_of_mem
    (List.mem_filter.mpr ⟨hr, beq_iff_eq.mpr hrk⟩)

theorem length_rfmGroup_le_one (df : Dataset)
    (hnd : (df.map (fun r => r.instant)).Nodup) (k : Nat) :
    (rfmGroup df k).length ≤ 1 := by
  induction df with
  | nil => simp [rfmGroup]
  | cons r t ih =>
    rw [List.map_cons, List.nodup_cons] at hnd
    unfold rfmGroup at *
    rw [List.filter_cons]
    by_cases hk : r.instant = k
    · have hb : (r.instant == k) = true := beq_iff_eq.mpr hk
      have ht : t.filter (fun x => x.instant == k) = [] := by
        refine List.filter_eq_nil_iff.mpr ?_
        intro a ha hak
        exact hnd.1 (by
          rw [← hk] at hak
          exact List.mem_map.mpr ⟨a, ha, beq_iff_eq.mp hak⟩)
      simp [hb, ht]
    · have hb : (r.instant == k) = false := by
        simp [hk]
      simp only [hb, if_neg]
      simpa using ih hnd.2

theorem sum_map_flag_eq_countP (f : Record → Nat) (l : List Record)
    (h : ∀ r ∈ l, f r ≤ 1) :
    (l.map f).sum = l.countP (fun r => f r == 1) := by
  induction l with
  | nil => simp
  | cons r t ih =>
    have hr := h r (List.mem_cons_self r t)
    have ih2 := ih (fun x hx => h x (List.mem_cons_of_mem r hx))
    rcases Nat.le_one_iff_eq_zero_or_eq_one.mp hr with h0 | h1
    · simp [List.countP_cons, h0, ih2]
    · simp [List.countP_cons, h1, ih2, Nat.add_comm]

/-- Example record: a workingday spring observation at 8am. -/
def exRec1 : Record :=
  { instant := 1, dteday := 10, season := 1, yr := 0, mnth := 1, hr := 8,
    holiday := 0, weekday := 1, workingday := 1, casual := 3,
    registered := 7, cnt := 10 }

/-- Example record: a holiday summer observation at 5pm. -/
def exRec2 : Record :=
  { instant := 2, dteday := 11, season := 2, yr := 0, mnth := 1, hr := 17,
    holiday := 1, weekday := 2, workingday := 0, casual := 5,
    registered := 15, cnt := 20 }

/-- Example two-row dataset. -/
def exDf : Dataset := [exRec1, exRec2]

/-- Criteria that pass every record of `exDf`: full date range, all
four seasons, both checkboxes off, full hour range. -/
def exCrit : FilterCriteria :=
  { start_date := 10, end_date := 11, season_filter := [1, 2, 3, 4],
    holiday_filter := false, workingday_filter := false,
    hour_min := 0, hour_max := 24 }

/-- The same criteria with the season multiselect cleared. -/
def exCritNoSeason : FilterCriteria :=
  { exCrit with season_filter := [] }

/-- Example dataset for the workingday-vs-holiday chart: two working
days, no holidays, 30 rentals in total. -/
def exDf6 : Dataset := [exRec1, { exRec1 with instant := 3, cnt := 20 }]

/-- C1: for every Dataset and FilterCriteria, the FilteredView is a
subset of the Dataset, and a record of the Dataset belongs to the
FilteredView iff its date lies in [start_date, end_date] (inclusive),
its season is in season_filter, it has holiday == 1 whenever
holiday_filter is set, workingday == 1 whenever workingday_filter is
set, and its hour lies in [hour_min, hour_max] (inclusive). -/
theorem claim1_filter_characterization (df : Dataset) (c : FilterCriteria) :
    (∀ r, r ∈ filtered_df df c → r ∈ df) ∧
    (∀ r ∈ df, (r ∈ filtered_df df c ↔
      c.start_date ≤ r.dteday ∧ r.dteday ≤ c.end_date ∧
      r.season ∈ c.season_filter ∧
      (c.holiday_filter = true → r.holiday = 1) ∧
      (c.workingday_filter = true → r.workingday = 1) ∧
      c.hour_min ≤ r.hr ∧ r.hr ≤ c.hour_max)) := by
  constructor
  · intro r hr
    exact ((mem_filtered_df df c r).mp hr).1
  · intro r hr
    rw [mem_filtered_df]
    tauto

/-- Witness for C1 at a concrete dataset, criteria and record. -/
theorem claim1_witness : exRec1 ∈ filtered_df exDf exCrit :=
  ((claim1_filter_characterization exDf exCrit).2 exRec1 (by decide)).mpr
    (by decide)

/-- C2: an empty season multiselect empties the FilteredView (no
implicit all-seasons fallback), and the metrics computed from it are
0 for the three sums and NaN (`none`) for the mean, with no error. -/
theorem claim2_empty_season_filter (df : Dataset) (c : FilterCriteria)
    (h : c.season_filter = []) :
    filtered_df df c = [] ∧
      computeMetrics (filtered_df df c) =
        { totalRentals := 0, avgRentals := none,
          totalCasual := 0, totalRegistered := 0 } := by
  have h1 : df.filter (pass1 c) = [] := by
    refine List.filter_eq_nil_iff.mpr ?_
    intro r hr
    simp [pass1, h]
  have h2 : filtered_df df c = [] := by
    unfold filtered_df applyWorkingday applyHoliday
    rw [h1]
    split <;> split <;> simp
  exact ⟨h2, by rw [h2]; rfl⟩

/-- Witness for C2 at a concrete dataset and criteria. -/
theorem claim2_witness :
    filtered_df exDf exCritNoSeason = [] ∧
      computeMetrics (filtered_df exDf exCritNoSeason) =
        { totalRentals := 0, avgRentals := none,
          totalCasual := 0, totalRegistered := 0 } :=
  claim2_empty_season_filter exDf exCritNoSeason rfl

/-- C4: if the input file is absent, `load_data` shows a visible error
and returns an empty Dataset, and the script halts at `st.stop` so
nothing further is rendered. -/
theorem claim4_missing_file_halts (contents : Dataset) (c : FilterCriteria) :
    (load_data false contents).errorShown = true ∧
      (load_data false contents).dataset = [] ∧
      runDashboard false contents c = none :=
  ⟨rfl, rfl, rfl⟩

/-- C5: the Total-rentals metric is the sum of `cnt` over the
FilteredView and the Average-rentals metric is the mean of `cnt`
rounded to two decimals; with criteria that restrict nothing the
FilteredView is the whole Dataset, so the total equals the sum of
`cnt` over the full Dataset. -/
theorem claim5_scalar_metrics (df : Dataset) (c : FilterCriteria) :
    (computeMetrics (filtered_df df c)).totalRentals = sumCnt (filtered_df df c) ∧
    (computeMetrics (filtered_df df c)).avgRentals
        = (meanCnt (filtered_df df c)).map round2 ∧
    (c.holiday_filter = false → c.workingday_filter = false →
      (∀ r ∈ df, c.start_date ≤ r.dteday ∧ r.dteday ≤ c.end_date ∧
        r.season ∈ c.season_filter ∧ c.hour_min ≤ r.hr ∧ r.hr ≤ c.hour_max) →
      filtered_df df c = df ∧
        (computeMetrics (filtered_df df c)).totalRentals = sumCnt df) := by
  refine ⟨rfl, rfl, ?_⟩
  intro h1 h2 hall
  have hp1 : df.filter (pass1 c) = df := by
    refine List.filter_eq_self.mpr ?_
    intro r hr
    rcases hall r hr with ⟨a, b, s, _, _⟩
    simp only [pass1, Bool.and_eq_true, decide_eq_true_eq]
    exact ⟨⟨a, b⟩, s⟩
  have hh : applyHoliday c df = df := by
    simp [applyHoliday, h1]
  have hw : applyWorkingday c df = df := by
    simp [applyWorkingday, h2]
  have hp4 : df.filter (pass4 c) = df := by
    refine List.filter_eq_self.mpr ?_
    intro r hr
    rcases hall r hr with ⟨_, _, _, hm, hM⟩
    simp only [pass4, Bool.and_eq_true, decide_eq_true_eq]
    exact ⟨hm, hM⟩
  have hfd : filtered_df df c = df := by
    unfold filtered_df
    rw [hp1, hh, hw, hp4]
  exact ⟨hfd, by rw [hfd]; rfl⟩

/-- Witness for C5 at a concrete dataset and all-pass criteria. -/
theorem claim5_witness :
    filtered_df exDf exCrit = exDf ∧
      (computeMetrics (filtered_df exDf exCrit)).totalRentals = sumCnt exDf :=
  (claim5_scalar_metrics exDf exCrit).2.2 rfl rfl (by decide)

/-- C6: the two bars of the workingday-vs-holiday chart are the sums
of the boolean `workingday` and `holiday` flag columns over the
FilteredView — i.e. the counts of records with each flag set — and on
a concrete view they differ from the sums of the `cnt` rental column
over those records. -/
theorem claim6_flag_sums (df : Dataset)
    (h : ∀ r ∈ df, r.workingday ≤ 1 ∧ r.holiday ≤ 1) :
    wdHolidayChart df =
      (df.countP (fun r => r.workingday == 1),
       df.countP (fun r => r.holiday == 1)) ∧
    wdHolidayChart exDf6 ≠ cntByFlags exDf6 := by
  constructor
  · unfold wdHolidayChart
    rw [sum_map_flag_eq_countP (fun r => r.workingday) df (fun r hr => (h r hr).1),
      sum_map_flag_eq_countP (fun r => r.holiday) df (fun r hr => (h r hr).2)]
  · decide

/-- Witness for C6 at a concrete view with flags set. -/
theorem claim6_witness :
    wdHolidayChart exDf6 =
      (exDf6.countP (fun r => r.workingday == 1),
       exDf6.countP (fun r => r.holiday == 1)) ∧
    wdHolidayChart exDf6 ≠ cntByFlags exDf6 :=
  claim6_flag_sums exDf6 (by decide)

/-- C7: when `instant` is a unique row identifier in the Dataset, the
RFM aggregation of any FilteredView grouped by `instant` has
Frequency equal to 1 in every group. -/
theorem claim7_frequency_one (df : Dataset) (c : FilterCriteria)
    (hnd : (df.map (fun r => r.instant)).Nodup) (endDate : Int) :
    ∀ k ∈ rfmKeys (filtered_df df c),
      (rfmAgg endDate (filtered_df df c) k).frequency = 1 := by
  intro k hk
  have hsub : List.Sublist ((filtered_df df c).map (fun r => r.instant))
      (df.map (fun r => r.instant)) :=
    List.Sublist.map _ (filtered_df_sublist df c)
  have hnd2 : ((filtered_df df c).map (fun r => r.instant)).Nodup :=
    List.Nodup.sublist hsub hnd
  have hle := length_rfmGroup_le_one (filtered_df df c) hnd2 k
  have hge : 1 ≤ (rfmGroup (filtered_df df c) k).length :=
    List.length_pos.mpr (rfmGroup_ne_nil (filtered_df df c) k hk)
  show (rfmGroup (filtered_df df c) k).length = 1
  omega

/-- Witness for C7 at a concrete dataset with distinct instants. -/
theorem claim7_witness :
    (rfmAgg 11 (filtered_df exDf exCrit) 1).frequency = 1 :=
  claim7_frequency_one exDf exCrit (by decide) 11 1 (by decide)

/-- C8: in the RFM aggregation, every group's Recency is the number of
days from the group's latest observation date to the reference date
(the filter's end date), and its Monetary is the sum of `cnt` over
the group; the latest date is characterized as a date of the group
that bounds all dates of the group. -/
theorem claim8_recency_monetary (endDate : Int) (df : Dataset) (k : Nat)
    (hk : k ∈ rfmKeys df) :
    (rfmAgg endDate df k).recency = endDate - maxDate (rfmGroup df k) ∧
    maxDate (rfmGroup df k) ∈ (rfmGroup df k).map (fun r => r.dteday) ∧
    (∀ r ∈ rfmGroup df k, r.dteday ≤ maxDate (rfmGroup df k)) ∧
    (rfmAgg endDate df k).monetary = sumCnt (rfmGroup df k) := by
  refine ⟨rfl, maxDate_mem _ (rfmGroup_ne_nil df k hk), ?_, rfl⟩
  intro r hr
  exact le_maxDate _ r hr

/-- Witness for C8 at a concrete dataset and group key. -/
theorem claim8_witness :
    (rfmAgg 11 exDf 2).recency = 11 - maxDate (rfmGroup exDf 2) ∧
    maxDate (rfmGroup exDf 2) ∈ (rfmGroup exDf 2).map (fun r => r.dteday) ∧
    (rfmAgg 11 exDf 2).monetary = sumCnt (rfmGroup exDf 2) := by
  have h := claim8_recency_monetary 11 exDf 2 (by decide)
  exact ⟨h.1, h.2.1, h.2.2.2⟩

/-- C10: every record of the FilteredView has date at most the
filter's end date, so every RFM group's Recency (computed against the
end date) is non-negative. -/
theorem claim10_recency_nonneg (df : Dataset) (c : FilterCriteria) :
    (∀ r ∈ filtered_df df c, r.dteday ≤ c.end_date) ∧
    (∀ k ∈ rfmKeys (filtered_df df c),
      0 ≤ (rfmAgg c.end_date (filtered_df df c) k).recency) := by
  have hdates : ∀ r ∈ filtered_df df c, r.dteday ≤ c.end_date := by
    intro r hr
    exact ((mem_filtered_df df c r).mp hr).2.2.1
  refine ⟨hdates, ?_⟩
  intro k hk
  have hne := rfmGroup_ne_nil (filtered_df df c) k hk
  have hmax : maxDate (rfmGroup (filtered_df df c) k) ≤ c.end_date := by
    refine maxDate_le _ _ hne ?_
    intro r hr
    exact hdates r (rfmGroup_subset _ k r hr).1
  show 0 ≤ c.end_date - maxDate (rfmGroup (filtered_df df c) k)
  omega

/-- Witness for C10 at a concrete dataset, criteria and group key. -/
theorem claim10_witness :
    0 ≤ (rfmAgg exCrit.end_date (filtered_df exDf exCrit) 1).recency :=
  (claim10_recency_nonneg exDf exCrit).2 1 (by decide)

/-- C3: the claim says the RFM quantile-binning step never raises, but
only the bin-count computation (dashboard.py lines 140-142) passes
`duplicates='drop'`; the score-assigning calls (lines 144-146) do not,
so they raise `ValueError: Bin edges must be unique` whenever the
reduced bin count still produces duplicate quantile edges.  Concrete
failing input: Recency = [0, 0, 0, 1] (its 4-quantile edges
[0, 0, 0, 1/4, 1] collapse to 3, so num_bins_r = 2, and the 2-quantile
edges [0, 0, 1] are again duplicated). -/
theorem ratFloor_eq (q : Rat) : q.floor = ⌊q⌋ := by
  rw [Rat.floor_def', Rat.floor_def]

theorem qcutEdges_r4 : qcutEdges [0, 0, 0, 1] 4 = [0, 0, 0, 1 / 4, 1] := by
  norm_num [qcutEdges, List.range_succ, quantileLin, sortRat, insertRat, ratFloor_eq]
  all_goals try simp
  all_goals try norm_num [Int.fract]

theorem qcutEdges_f4 : qcutEdges [1, 1, 1, 1] 4 = [1, 1, 1, 1, 1] := by
  norm_num [qcutEdges, List.range_succ, quantileLin, sortRat, insertRat, ratFloor_eq]
  all_goals try simp

theorem qcutEdges_m4 : qcutEdges [10, 20, 30, 40] 4 = [10, 35 / 2, 25, 65 / 2, 40] := by
  norm_num [qcutEdges, List.range_succ, quantileLin, sortRat, insertRat, ratFloor_eq]
  all_goals try simp
  all_goals try norm_num [Int.fract]

theorem qcutEdges_r2 : qcutEdges [0, 0, 0, 1] 2 = [0, 0, 1] := by
  norm_num [qcutEdges, List.range_succ, quantileLin, sortRat, insertRat, ratFloor_eq]
  all_goals try simp

theorem qcutCheck_r4 : qcutCheck [0, 0, 0, 1] 4 true = Except.ok [0, 1 / 4, 1] := by
  simp only [qcutCheck, qcutEdges_r4]
  norm_num [dedupAdj]

theorem qcutCheck_f4 : qcutCheck [1, 1, 1, 1] 4 true = Except.ok [1] := by
  simp only [qcutCheck, qcutEdges_f4]
  norm_num [dedupAdj]

theorem qcutCheck_m4 : qcutCheck [10, 20, 30, 40] 4 true =
    Except.ok [10, 35 / 2, 25, 65 / 2, 40] := by
  simp only [qcutCheck, qcutEdges_m4]
  norm_num [dedupAdj]

theorem qcutCheck_r2 : qcutCheck [0, 0, 0, 1] 2 false =
    Except.error "Bin edges must be unique" := by
  simp only [qcutCheck, qcutEdges_r2]
  norm_num [dedupAdj]

theorem claim3_qcut_raises :
    rfmBinning [0, 0, 0, 1] [1, 1, 1, 1] [10, 20, 30, 40] =
      Except.error "Bin edges must be unique" := by
  simp only [rfmBinning, qcutCheck_r4, qcutCheck_f4, qcutCheck_m4]
  simp only [bind, Except.bind, List.length_cons, List.length_nil]
  norm_num [qcutCheck_r2]

/-- C9 counterexample: a record violating casual + registered == cnt
passes `load_data` unchanged with no error shown, so the loader does
not verify the invariant at load time. -/
theorem claim9_counterexample :
    (exRec1.casual + exRec1.registered = exRec1.cnt) ∧
    ({ exRec1 with cnt := 99 }.casual + { exRec1 with cnt := 99 }.registered
        ≠ { exRec1 with cnt := 99 }.cnt) ∧
    load_data true [{ exRec1 with cnt := 99 }] =
      { errorShown := false, dataset := [{ exRec1 with cnt := 99 }] } := by
  exact ⟨by decide, by decide, rfl⟩

/-- C9 amended: `load_data` performs no validation at all: whenever the
file exists it returns the parsed rows unchanged and shows no error,
so a Dataset violating casual + registered == cnt passes the loader
unnoticed; the invariant is an unchecked precondition on the input
data. -/
theorem claim9_no_validation (contents : Dataset) :
    load_data true contents = { errorShown := false, dataset := contents } :=
  rfl
